import Mathlib

/-!
Shallow embedding of the podcast preview card repository.

Two source files are modelled:

* `src/createPodcastCard.js` — the main `PodcastCard` custom element
  (namespace `PC` below): a shadow-DOM web component with six observed
  attributes, an imperative `podcast` property, a `render` method that
  resolves data (property first, attributes as fallback), substitutes
  defaults, and writes a template into the shadow root; its constructor
  installs a click listener dispatching a bubbling, composed
  `podcast-selected` custom event.

* `src/podcastCard.js` — a simpler attribute-only `PodcastCard` element
  (namespace `PCSimple` below) rendering title, image and description
  with its own defaults.

JavaScript values relevant to the data flow are modelled by `PC.JSVal`
(null/undefined collapse to `JSVal.null`: the code only distinguishes
them through truthiness and both stringify outside every reachable
path).  The ambient `Date.toLocaleDateString` collaborator is a locale
dependent pure function of the raw `updated` value, modelled as an
explicit parameter `fmt : JSVal → String`.
-/

namespace PC

/-- A JavaScript value as it can appear in a podcast record field:
`null`/`undefined` (collapsed), a string, a number (the code only
meets integral ones), or an array of strings (the `genres` list). -/
inductive JSVal where
  | null
  | str (s : String)
  | num (n : Int)
  | arr (xs : List String)
  deriving DecidableEq

/-- JavaScript truthiness of a `JSVal`: `null`/`undefined` are falsy,
a string is truthy iff nonempty, a number iff nonzero, an array always. -/
def jsTruthy : JSVal → Bool
  | .null => false
  | .str s => s != ""
  | .num n => n != 0
  | .arr _ => true

/-- JavaScript string conversion, as applied by template-literal
interpolation: a string is itself, a number prints in decimal, an
array joins its elements with a bare comma. -/
def display : JSVal → String
  | .null => "null"
  | .str s => s
  | .num n => toString n
  | .arr xs => String.intercalate "," xs

/-- The record shape read by `PodcastCard.render` and produced by
`_attributesToObject` (the `id` field of the spec data model is never
read by the component, so it is not part of the record here). -/
structure PodcastData where
  title : JSVal
  image : JSVal
  description : JSVal
  genres : JSVal
  seasons : JSVal
  updated : JSVal
  deriving DecidableEq

/-- The six observed element attributes; `getAttribute` yields `null`
for an absent attribute, modelled as `Option String`. -/
structure Attrs where
  title : Option String
  image : Option String
  description : Option String
  genres : Option String
  seasons : Option String
  updated : Option String
  deriving DecidableEq

/-- Result of `getAttribute` as a record field value. -/
def attrVal : Option String → JSVal
  | Option.none => JSVal.null
  | Option.some s => JSVal.str s

/-- Method `_attributesToObject`: builds a plain object from the
current attributes (absent attribute ↦ null). -/
def attributesToObject (a : Attrs) : PodcastData :=
  { title := attrVal a.title
    image := attrVal a.image
    description := attrVal a.description
    genres := attrVal a.genres
    seasons := attrVal a.seasons
    updated := attrVal a.updated }

/-- A value held by the `_podcast` property.  The setter accepts any
JavaScript value; besides a proper record object the claims need the
falsy primitives null, undefined, 0 and the empty string. -/
inductive PropVal where
  | vnull
  | vundefined
  | vnum (n : Int)
  | vstr (s : String)
  | vobj (o : PodcastData)
  deriving DecidableEq

/-- Truthiness of a property value: objects are always truthy. -/
def propTruthy : PropVal → Bool
  | .vnull => false
  | .vundefined => false
  | .vnum n => n != 0
  | .vstr s => s != ""
  | .vobj _ => true

/-- Property access on a primitive yields `undefined` for every field. -/
def undefinedRecord : PodcastData :=
  { title := JSVal.null, image := JSVal.null, description := JSVal.null
    genres := JSVal.null, seasons := JSVal.null, updated := JSVal.null }

/-- Line 136: `const data = this._podcast || this._attributesToObject();`
followed by the field accesses `data.title`, … — a truthy `_podcast`
wins (field access on a truthy primitive gives `undefined`), a falsy
one falls back to the attribute-derived object. -/
def dataOf (p : PropVal) (a : Attrs) : PodcastData :=
  match p with
  | .vobj o => o
  | .vstr s => if s != "" then undefinedRecord else attributesToObject a
  | .vnum n => if n != 0 then undefinedRecord else attributesToObject a
  | .vnull => attributesToObject a
  | .vundefined => attributesToObject a

/-- Line 138: the local `title`, defaulting to "Untitled Podcast" when
`data.title` is falsy, as the string template interpolation produces. -/
def titleOf (d : PodcastData) : String :=
  if jsTruthy d.title then display d.title else "Untitled Podcast"

/-- Line 139: the local `image`, defaulting to "placeholder.jpg" when
`data.image` is falsy. -/
def imageOf (d : PodcastData) : String :=
  if jsTruthy d.image then display d.image else "placeholder.jpg"

/-- Lines 140–143: the local `genres` — an array joins with comma-space,
otherwise the value itself when truthy, else the empty string — as the
string template interpolation produces. -/
def genresOf (d : PodcastData) : String :=
  match d.genres with
  | .arr xs => String.intercalate ", " xs
  | g => if jsTruthy g then display g else ""

/-- Line 144: the local `seasons`, defaulting to the em-dash when
`data.seasons` is falsy. -/
def seasonsOf (d : PodcastData) : String :=
  if jsTruthy d.seasons then display d.seasons else "—"

/-- Lines 145–151: the local `updated` — the formatted date when
`data.updated` is truthy, else the empty string; the date formatter is
the ambient collaborator `fmt`. -/
def updatedOf (fmt : JSVal → String) (d : PodcastData) : String :=
  if jsTruthy d.updated then fmt d.updated else ""

/-- The fixed template text from the opening backtick (line 172)
through `<img src="`. -/
def templateHead : String :=
  "\n      <style>\n        :host \x7b\n          display: block;\n          max-width: 300px;\n          margin: 0 auto;\n        \x7d\n"
  ++ "        .card \x7b\n          display: flex;\n          flex-direction: column;\n          border-radius: 12px;\n          box-shadow: 0 2px 6px rgba(0,0,0,0.1);\n          overflow: hidden;\n          cursor: pointer;\n          transition: transform 0.2s ease;\n          background: #fff;\n        \x7d\n"
  ++ "        .card:hover \x7b\n          transform: scale(1.02);\n        \x7d\n"
  ++ "        img \x7b\n          width: 100%;\n          aspect-ratio: 1/1;\n          object-fit: cover;\n        \x7d\n"
  ++ "        .content \x7b\n          padding: 1rem;\n          display: flex;\n          flex-direction: column;\n          gap: .25rem;\n        \x7d\n"
  ++ "        h3 \x7b\n          margin: 0;\n          font-size: 1.1rem;\n          font-weight: 600;\n        \x7d\n"
  ++ "        .meta \x7b\n          font-size: 0.85rem;\n          color: #555;\n        \x7d\n"
  ++ "        @media (min-width: 600px) \x7b\n          :host \x7b\n            max-width: 250px;\n          \x7d\n        \x7d\n"
  ++ "      </style>\n      <div class=\"card\">\n        <img src=\""

/-- Render method `PodcastCard.render`, lines 134–228: resolves the data record,
computes the five display strings and produces the markup written to
`shadowRoot.innerHTML` (the two conditional template sections emit
their `div` only when the corresponding string is nonempty, exactly as
the template conditionals test the computed values). -/
def renderHTML (fmt : JSVal → String) (d : PodcastData) : String :=
  let title := titleOf d
  let image := imageOf d
  let genres := genresOf d
  let seasons := seasonsOf d
  let updated := updatedOf fmt d
  templateHead ++ image ++ "\" alt=\"" ++ title
    ++ "\">\n        <div class=\"content\">\n          <h3>" ++ title
    ++ "</h3>\n          "
    ++ (if genres != "" then "<div class=\"meta\">Genres: " ++ genres ++ "</div>" else "")
    ++ "\n          <div class=\"meta\">Seasons: " ++ seasons ++ "</div>\n          "
    ++ (if updated != "" then "<div class=\"meta\">Last updated: " ++ updated ++ "</div>" else "")
    ++ "\n        </div>\n      </div>\n    "

/-- The observable state of a `<podcast-card>` element: its attribute
map, the `_podcast` property, the markup currently in the shadow root,
and a count of `render()` invocations (the instrumentation by which
"a re-render happened" is observed). -/
structure ElemState where
  attrs : Attrs
  podcastProp : PropVal
  shadowHTML : String
  renderCount : Nat
  deriving DecidableEq

/-- Constructor state: `this._podcast = null`, empty shadow root. -/
def initState (a : Attrs) : ElemState :=
  { attrs := a, podcastProp := PropVal.vnull, shadowHTML := "", renderCount := 0 }

/-- One call of `this.render()`: recomputes the markup from the current
data and replaces the shadow-root content. -/
def doRender (fmt : JSVal → String) (s : ElemState) : ElemState :=
  { s with shadowHTML := renderHTML fmt (dataOf s.podcastProp s.attrs)
           renderCount := s.renderCount + 1 }

/-- Setter of the `podcast` property: stores the value in `_podcast`
and re-renders (lines 94–97). -/
def setPodcast (fmt : JSVal → String) (s : ElemState) (v : PropVal) : ElemState :=
  doRender fmt { s with podcastProp := v }

/-- Getter of the `podcast` property: returns `_podcast` unchanged
(lines 98–100). -/
def getPodcast (s : ElemState) : PropVal :=
  s.podcastProp

/-- Lifecycle hook `connectedCallback`: triggers an initial render. -/
def connectedCallback (fmt : JSVal → String) (s : ElemState) : ElemState :=
  doRender fmt s

/-- The six observed attribute names (static `observedAttributes`). -/
inductive AttrName where
  | title | image | description | genres | seasons | updated
  deriving DecidableEq

/-- Reads an observed attribute, as `getAttribute` does. -/
def getAttr (a : Attrs) : AttrName → Option String
  | .title => a.title
  | .image => a.image
  | .description => a.description
  | .genres => a.genres
  | .seasons => a.seasons
  | .updated => a.updated

/-- Attribute-map update performed by `setAttribute(name, value)`. -/
def putAttr (a : Attrs) : AttrName → String → Attrs
  | .title, v => { a with title := Option.some v }
  | .image, v => { a with image := Option.some v }
  | .description, v => { a with description := Option.some v }
  | .genres, v => { a with genres := Option.some v }
  | .seasons, v => { a with seasons := Option.some v }
  | .updated, v => { a with updated := Option.some v }

/-- Lines 78–82: `attributeChangedCallback(name, oldValue, newValue)`
re-renders exactly when `oldValue !== newValue`. -/
def attributeChangedCallback (fmt : JSVal → String) (s : ElemState)
    (oldValue newValue : Option String) : ElemState :=
  if oldValue != newValue then doRender fmt s else s

/-- Effect of `setAttribute(name, v)` on an observed attribute: the
platform updates the attribute, then invokes
`attributeChangedCallback` with the previous and the new value. -/
def setAttribute (fmt : JSVal → String) (s : ElemState) (n : AttrName) (v : String) : ElemState :=
  attributeChangedCallback fmt { s with attrs := putAttr s.attrs n v }
    (getAttr s.attrs n) (Option.some v)

/-- An outward DOM event as dispatched by the component; `detail` holds
the `podcast` payload of `event.detail.podcast`. -/
structure DomEvent where
  name : String
  detail : PropVal
  bubbles : Bool
  composed : Bool
  deriving DecidableEq

/-- Lines 52–58: the shadow-root click listener dispatches one
`podcast-selected` custom event with
`detail = \x7b podcast: this._podcast || this._attributesToObject() \x7d`,
`bubbles: true`, `composed: true`. -/
def clickEvents (s : ElemState) : List DomEvent :=
  [ { name := "podcast-selected"
      detail := if propTruthy s.podcastProp then s.podcastProp
                else PropVal.vobj (attributesToObject s.attrs)
      bubbles := true
      composed := true } ]

/-- A click applied to the element: the listener only dispatches the
event, so the component state is returned together with the dispatched
events. -/
def click (s : ElemState) : ElemState × List DomEvent :=
  (s, clickEvents s)

end PC

namespace PCSimple

/-- Attributes of the simpler attribute-only `PodcastCard` element of
`src/podcastCard.js` (observed: title, image, description). -/
structure SAttrs where
  title : Option String
  image : Option String
  description : Option String
  deriving DecidableEq

/-- Line 24: the title attribute, defaulting to "Untitled Podcast"
(`getAttribute` yields null when absent; null and the empty string are
falsy). -/
def titleOf (a : SAttrs) : String :=
  match a.title with
  | Option.some s => if s != "" then s else "Untitled Podcast"
  | Option.none => "Untitled Podcast"

/-- Line 25: the image attribute, defaulting to "placeholder.jpg". -/
def imageOf (a : SAttrs) : String :=
  match a.image with
  | Option.some s => if s != "" then s else "placeholder.jpg"
  | Option.none => "placeholder.jpg"

/-- Line 26: the description attribute, defaulting to
"No description available". -/
def descriptionOf (a : SAttrs) : String :=
  match a.description with
  | Option.some s => if s != "" then s else "No description available"
  | Option.none => "No description available"

/-- Render method of the attribute-only card, lines 23–68 of
`src/podcastCard.js`: the markup written to `shadowRoot.innerHTML`. -/
def renderHTML (a : SAttrs) : String :=
  let title := titleOf a
  let image := imageOf a
  let description := descriptionOf a
  "\n      <style>\n        .card \x7b\n          display: grid;\n          grid-template-rows: auto 1fr;\n          border-radius: 8px;\n          box-shadow: 0 2px 6px rgba(0,0,0,0.1);\n          overflow: hidden;\n          cursor: pointer;\n          transition: transform 0.2s ease;\n        \x7d\n"
  ++ "        .card:hover \x7b\n          transform: scale(1.02);\n        \x7d\n"
  ++ "        img \x7b\n          width: 100%;\n          height: 150px;\n          object-fit: cover;\n        \x7d\n"
  ++ "        .content \x7b\n          padding: 1rem;\n        \x7d\n"
  ++ "        h3 \x7b\n          margin: 0 0 .5rem;\n          font-size: 1.2rem;\n        \x7d\n"
  ++ "        p \x7b\n          margin: 0;\n          font-size: 0.9rem;\n          color: #666;\n        \x7d\n"
  ++ "      </style>\n      <div class=\"card\">\n        <img src=\"" ++ image
  ++ "\" alt=\"" ++ title ++ "\">\n        <div class=\"content\">\n          <h3>" ++ title
  ++ "</h3>\n          <p>" ++ description ++ "</p>\n        </div>\n      </div>\n    "

end PCSimple

/-- Substring containment: `pat` occurs contiguously in `s` (used to
state that rendered markup contains a given fragment). -/
def SubStr (pat s : String) : Prop :=
  ∃ pre post, s = pre ++ pat ++ post

theorem substr_append_left {pat b : String} (a : String) (h : SubStr pat b) :
    SubStr pat (a ++ b) := by
  obtain ⟨pre, post, rfl⟩ := h
  exact ⟨a ++ pre, post, by simp [String.append_assoc]⟩

theorem substr_append_right {pat a : String} (b : String) (h : SubStr pat a) :
    SubStr pat (a ++ b) := by
  obtain ⟨pre, post, rfl⟩ := h
  exact ⟨pre, post ++ b, by simp [String.append_assoc]⟩

/-! ### Fixtures used by witness theorems -/

/-- A concrete stand-in for the locale date formatter. -/
def fmtDemo : PC.JSVal → String := fun _ => "Jan 15, 2024"

/-- A fully populated attribute map. -/
def sampleAttrs : PC.Attrs :=
  { title := Option.some "Attr Title", image := Option.some "attr.jpg"
    description := Option.some "attr description", genres := Option.some "Comedy, News"
    seasons := Option.some "2", updated := Option.some "2024-01-15" }

/-- A fully populated podcast record. -/
def sampleRec : PC.PodcastData :=
  { title := PC.JSVal.str "Pod A", image := PC.JSVal.str "cover.jpg"
    description := PC.JSVal.str "a show", genres := PC.JSVal.arr ["Comedy", "News"]
    seasons := PC.JSVal.num 2, updated := PC.JSVal.str "2024-01-15" }

/-- The record with every field missing. -/
def nullRec : PC.PodcastData :=
  { title := PC.JSVal.null, image := PC.JSVal.null, description := PC.JSVal.null
    genres := PC.JSVal.null, seasons := PC.JSVal.null, updated := PC.JSVal.null }

/-- A record whose title carries script markup. -/
def xssRec : PC.PodcastData :=
  { nullRec with title := PC.JSVal.str "<script>alert(1)</script>" }

/-- A record whose genres field is a number: neither array nor string. -/
def gRec : PC.PodcastData :=
  { nullRec with genres := PC.JSVal.num 42 }

/-- Element state with both the property object and attributes set. -/
def stateProp : PC.ElemState :=
  { attrs := sampleAttrs, podcastProp := PC.PropVal.vobj sampleRec
    shadowHTML := "", renderCount := 0 }

/-- Element state with attributes only (property never set). -/
def stateAttrsOnly : PC.ElemState := PC.initState sampleAttrs

/-! ### Claim theorems -/

/-- C1: when the podcast property holds a data object, `render` reads its
data from that object — the markup is a function of the object alone,
independent of the attributes — and the attribute-derived object is used
exactly when no property data is set (the property is still its initial
null). -/
theorem claim1_property_precedence (fmt : PC.JSVal → String) (s : PC.ElemState)
    (o : PC.PodcastData) :
    (PC.setPodcast fmt s (PC.PropVal.vobj o)).shadowHTML = PC.renderHTML fmt o ∧
    (s.podcastProp = PC.PropVal.vnull →
      (PC.doRender fmt s).shadowHTML = PC.renderHTML fmt (PC.attributesToObject s.attrs)) ∧
    (∀ p : PC.PropVal, ∀ a a' : PC.Attrs, PC.propTruthy p = true →
      PC.dataOf p a = PC.dataOf p a') := by
  refine ⟨rfl, ?_, ?_⟩
  · intro h
    simp [PC.doRender, PC.dataOf, h]
  · intro p a a' hp
    cases p with
    | vobj o => rfl
    | vnull => simp [PC.propTruthy] at hp
    | vundefined => simp [PC.propTruthy] at hp
    | vnum n =>
        simp only [PC.propTruthy] at hp
        simp [PC.dataOf, hp]
    | vstr t =>
        simp only [PC.propTruthy] at hp
        simp [PC.dataOf, hp]

/-- Witness for C1 at concrete states: the property object wins over the
populated attributes, and the untouched-property state renders from the
attribute-derived object. -/
theorem claim1_witness :
    (PC.setPodcast fmtDemo stateAttrsOnly (PC.PropVal.vobj sampleRec)).shadowHTML
      = PC.renderHTML fmtDemo sampleRec ∧
    (PC.doRender fmtDemo stateAttrsOnly).shadowHTML
      = PC.renderHTML fmtDemo (PC.attributesToObject stateAttrsOnly.attrs) ∧
    PC.dataOf (PC.PropVal.vobj sampleRec) sampleAttrs
      = PC.dataOf (PC.PropVal.vobj sampleRec)
          (PC.Attrs.mk Option.none Option.none Option.none Option.none Option.none Option.none) :=
  ⟨(claim1_property_precedence fmtDemo stateAttrsOnly sampleRec).1,
   (claim1_property_precedence fmtDemo stateAttrsOnly sampleRec).2.1 rfl,
   (claim1_property_precedence fmtDemo stateAttrsOnly sampleRec).2.2
     (PC.PropVal.vobj sampleRec) sampleAttrs
     (PC.Attrs.mk Option.none Option.none Option.none Option.none Option.none Option.none)
     rfl⟩

/-- C3: a genres sequence renders exactly as the corresponding pre-joined
comma-separated string: the whole markup is identical. -/
theorem claim3_genres_array_eq_joined (fmt : PC.JSVal → String)
    (d : PC.PodcastData) (xs : List String) :
    PC.renderHTML fmt { d with genres := PC.JSVal.arr xs }
      = PC.renderHTML fmt { d with genres := PC.JSVal.str (String.intercalate ", " xs) } := by
  have hg : PC.genresOf { d with genres := PC.JSVal.arr xs }
      = PC.genresOf { d with genres := PC.JSVal.str (String.intercalate ", " xs) } := by
    simp only [PC.genresOf, PC.jsTruthy, PC.display]
    by_cases h : String.intercalate ", " xs = "" <;> simp [h]
  simp only [PC.renderHTML, hg]
  rfl

/-- Helper: writing an attribute back with its current value leaves the
attribute map unchanged. -/
theorem putAttr_self (a : PC.Attrs) (n : PC.AttrName) (v : String)
    (h : PC.getAttr a n = Option.some v) : PC.putAttr a n v = a := by
  cases n <;> simp only [PC.getAttr] at h <;> simp only [PC.putAttr, ← h]

/-- C4: setting an observed attribute re-renders exactly when the new
value differs from the previous one, and re-setting the current value
leaves the whole element state untouched. -/
theorem claim4_attr_rerender_iff (fmt : PC.JSVal → String) (s : PC.ElemState)
    (n : PC.AttrName) (v : String) :
    ((PC.setAttribute fmt s n v).renderCount = s.renderCount + 1
        ↔ PC.getAttr s.attrs n ≠ Option.some v) ∧
    (PC.getAttr s.attrs n = Option.some v → PC.setAttribute fmt s n v = s) := by
  constructor
  · by_cases h : PC.getAttr s.attrs n = Option.some v <;>
      simp [PC.setAttribute, PC.attributeChangedCallback, PC.doRender, h]
  · intro h
    simp [PC.setAttribute, putAttr_self s.attrs n v h, PC.attributeChangedCallback, h]

/-- Witness for C4: re-setting the title attribute of the sample state to
its current value is a no-op, and the same call on a state whose title
differs bumps the render count. -/
theorem claim4_witness :
    PC.setAttribute fmtDemo stateAttrsOnly PC.AttrName.title "Attr Title" = stateAttrsOnly ∧
    (PC.setAttribute fmtDemo stateAttrsOnly PC.AttrName.title "Other").renderCount
      = stateAttrsOnly.renderCount + 1 :=
  ⟨(claim4_attr_rerender_iff fmtDemo stateAttrsOnly PC.AttrName.title "Attr Title").2 rfl,
   (claim4_attr_rerender_iff fmtDemo stateAttrsOnly PC.AttrName.title "Other").1.mpr
     (by decide)⟩

/-- C5: rendering is idempotent — a second `render()` with unchanged data
writes byte-identical markup into the shadow root. -/
theorem claim5_render_idempotent (fmt : PC.JSVal → String) (s : PC.ElemState) :
    (PC.doRender fmt (PC.doRender fmt s)).shadowHTML = (PC.doRender fmt s).shadowHTML :=
  rfl

/-- C6: every click produces exactly one `podcast-selected` event; it
bubbles, is composed (crosses the shadow boundary), and its payload is
the property object when one is set, else the attribute-derived
object. -/
theorem claim6_click_single_event (s : PC.ElemState) :
    (PC.click s).2.length = 1 ∧
    ∀ e ∈ (PC.click s).2,
      e.name = "podcast-selected" ∧ e.bubbles = true ∧ e.composed = true ∧
      (∀ o : PC.PodcastData, s.podcastProp = PC.PropVal.vobj o →
        e.detail = PC.PropVal.vobj o) ∧
      (s.podcastProp = PC.PropVal.vnull →
        e.detail = PC.PropVal.vobj (PC.attributesToObject s.attrs)) := by
  refine ⟨rfl, ?_⟩
  intro e he
  simp only [PC.click, PC.clickEvents, List.mem_singleton] at he
  subst he
  refine ⟨rfl, rfl, rfl, ?_, ?_⟩
  · intro o ho
    simp [ho, PC.propTruthy]
  · intro h
    simp [h, PC.propTruthy]

/-- The single event dispatched when the property object is set. -/
def evProp : PC.DomEvent :=
  { name := "podcast-selected", detail := PC.PropVal.vobj sampleRec
    bubbles := true, composed := true }

/-- The single event dispatched when only attributes are present. -/
def evAttrs : PC.DomEvent :=
  { name := "podcast-selected"
    detail := PC.PropVal.vobj (PC.attributesToObject sampleAttrs)
    bubbles := true, composed := true }

/-- Witness for C6 at the two concrete states: one event per click, with
the property payload resp. the attribute-derived payload. -/
theorem claim6_witness :
    (PC.click stateProp).2.length = 1 ∧
    evProp.detail = PC.PropVal.vobj sampleRec ∧
    evAttrs.detail = PC.PropVal.vobj (PC.attributesToObject stateAttrsOnly.attrs) := by
  have h1 := claim6_click_single_event stateProp
  have h2 := claim6_click_single_event stateAttrsOnly
  have m1 : evProp ∈ (PC.click stateProp).2 := by decide
  have m2 : evAttrs ∈ (PC.click stateAttrsOnly).2 := by decide
  exact ⟨h1.1, (h1.2 evProp m1).2.2.2.1 sampleRec rfl, (h2.2 evAttrs m2).2.2.2.2 rfl⟩

/-- C8: no component operation mutates the stored record — rendering and
clicking leave both the property value and the attributes unchanged, the
getter observes the same value after a render, and the setter replaces
the record wholesale. -/
theorem claim8_record_not_mutated (fmt : PC.JSVal → String) (s : PC.ElemState)
    (v : PC.PropVal) :
    (PC.doRender fmt s).podcastProp = s.podcastProp ∧
    (PC.doRender fmt s).attrs = s.attrs ∧
    (PC.click s).1 = s ∧
    PC.getPodcast (PC.doRender fmt s) = PC.getPodcast s ∧
    (PC.setPodcast fmt s v).podcastProp = v ∧
    (PC.setPodcast fmt s v).attrs = s.attrs :=
  ⟨rfl, rfl, rfl, rfl, rfl, rfl⟩

/-- C10: setting the podcast property to a falsy value (null, undefined,
0 or the empty string) makes both the rendered markup and the click
payload fall back to the attribute-derived object, while the getter
still returns the falsy value that was set. -/
theorem claim10_falsy_property (fmt : PC.JSVal → String) (s : PC.ElemState)
    (v : PC.PropVal)
    (hv : v = PC.PropVal.vnull ∨ v = PC.PropVal.vundefined ∨
          v = PC.PropVal.vnum 0 ∨ v = PC.PropVal.vstr "") :
    PC.getPodcast (PC.setPodcast fmt s v) = v ∧
    PC.propTruthy v = false ∧
    (PC.setPodcast fmt s v).shadowHTML = PC.renderHTML fmt (PC.attributesToObject s.attrs) ∧
    (PC.clickEvents (PC.setPodcast fmt s v)).map PC.DomEvent.detail
      = [PC.PropVal.vobj (PC.attributesToObject s.attrs)] := by
  rcases hv with rfl | rfl | rfl | rfl <;>
    refine ⟨rfl, by decide, ?_, ?_⟩ <;>
    simp [PC.setPodcast, PC.doRender, PC.dataOf, PC.clickEvents, PC.propTruthy]

/-- Witness for C10: overwriting the previously set property object of
the sample state with the number 0 falls back to the attributes while
the getter reports 0. -/
theorem claim10_witness :
    PC.getPodcast (PC.setPodcast fmtDemo stateProp (PC.PropVal.vnum 0))
      = PC.PropVal.vnum 0 ∧
    PC.propTruthy (PC.PropVal.vnum 0) = false ∧
    (PC.setPodcast fmtDemo stateProp (PC.PropVal.vnum 0)).shadowHTML
      = PC.renderHTML fmtDemo (PC.attributesToObject stateProp.attrs) ∧
    (PC.clickEvents (PC.setPodcast fmtDemo stateProp (PC.PropVal.vnum 0))).map PC.DomEvent.detail
      = [PC.PropVal.vobj (PC.attributesToObject stateProp.attrs)] :=
  claim10_falsy_property fmtDemo stateProp (PC.PropVal.vnum 0)
    (Or.inr (Or.inr (Or.inl rfl)))

/-- Attribute map of the simple card with the description missing. -/
def noDesc : PCSimple.SAttrs :=
  { title := Option.some "Pod A", image := Option.some "cover.jpg"
    description := Option.none }

/-- C2 counterexample: with the description attribute missing, the
attribute-only card renders the text "No description available" — not
the empty description the claim documents. -/
theorem claim2_counterexample :
    PCSimple.descriptionOf noDesc = "No description available" ∧
    ("No description available" : String) ≠ "" ∧
    SubStr "No description available" (PCSimple.renderHTML noDesc) := by
  refine ⟨rfl, by decide, ?_⟩
  simp only [PCSimple.renderHTML]
  apply substr_append_right
  apply substr_append_left
  exact ⟨"", "", by rfl⟩

/-- C2 (amended): a missing (null) field renders as its documented
default — "Untitled Podcast" for the title, the placeholder image, the
em-dash for the season count, the empty string for the date, the empty
string for genres — while the description never reaches the main
markup at all, and the attribute-only card substitutes
"No description available" for a missing description. -/
theorem claim2_documented_defaults (fmt : PC.JSVal → String) (d : PC.PodcastData)
    (v : PC.JSVal) (a : PCSimple.SAttrs) :
    (d.title = PC.JSVal.null → PC.titleOf d = "Untitled Podcast") ∧
    (d.image = PC.JSVal.null → PC.imageOf d = "placeholder.jpg") ∧
    (d.seasons = PC.JSVal.null → PC.seasonsOf d = "—") ∧
    (d.updated = PC.JSVal.null → PC.updatedOf fmt d = "") ∧
    (d.genres = PC.JSVal.null → PC.genresOf d = "") ∧
    (PC.renderHTML fmt { d with description := v } = PC.renderHTML fmt d) ∧
    (a.description = Option.none →
      PCSimple.descriptionOf a = "No description available") := by
  refine ⟨?_, ?_, ?_, ?_, ?_, rfl, ?_⟩ <;> intro h <;>
    simp [PC.titleOf, PC.imageOf, PC.seasonsOf, PC.updatedOf, PC.genresOf,
      PCSimple.descriptionOf, h, PC.jsTruthy]

/-- Witness for C2 at the all-missing record and empty attribute map. -/
theorem claim2_witness :
    PC.titleOf nullRec = "Untitled Podcast" ∧
    PC.imageOf nullRec = "placeholder.jpg" ∧
    PC.seasonsOf nullRec = "—" ∧
    PC.updatedOf fmtDemo nullRec = "" ∧
    PC.genresOf nullRec = "" ∧
    PC.renderHTML fmtDemo { nullRec with description := PC.JSVal.str "hidden" }
      = PC.renderHTML fmtDemo nullRec ∧
    PCSimple.descriptionOf (PCSimple.SAttrs.mk Option.none Option.none Option.none)
      = "No description available" := by
  have h := claim2_documented_defaults fmtDemo nullRec (PC.JSVal.str "hidden")
    (PCSimple.SAttrs.mk Option.none Option.none Option.none)
  exact ⟨h.1 rfl, h.2.1 rfl, h.2.2.1 rfl, h.2.2.2.1 rfl, h.2.2.2.2.1 rfl,
    h.2.2.2.2.2.1, h.2.2.2.2.2.2 rfl⟩

/-- C7 counterexample: a genres value that is neither an array nor a
string — the number 42 — is not normalized to the empty string: the
markup shows "Genres: 42". -/
theorem claim7_counterexample :
    PC.genresOf gRec = "42" ∧ PC.genresOf gRec ≠ "" ∧
    SubStr "Genres: 42" (PC.renderHTML fmtDemo gRec) := by
  refine ⟨rfl, by decide, ?_⟩
  simp only [PC.renderHTML]
  apply substr_append_right
  apply substr_append_right
  apply substr_append_right
  apply substr_append_right
  apply substr_append_right
  apply substr_append_left
  have hg : PC.genresOf gRec = "42" := rfl
  rw [hg, if_pos (show (("42" : String) != "") = true by decide)]
  exact ⟨"<div class=\"meta\">", "</div>", by rfl⟩

/-- C7 (amended): only a falsy genres value of mismatched type (null,
undefined, or the number 0) is normalized to the empty string; a truthy
non-array non-string value such as a nonzero number is rendered through
its string conversion instead.  No input makes `render` fail. -/
theorem claim7_falsy_genres_normalized (d : PC.PodcastData) :
    (d.genres = PC.JSVal.null → PC.genresOf d = "") ∧
    (d.genres = PC.JSVal.num 0 → PC.genresOf d = "") ∧
    (∀ n : Int, n ≠ 0 → d.genres = PC.JSVal.num n → PC.genresOf d = toString n) := by
  refine ⟨?_, ?_, ?_⟩
  · intro h
    simp [PC.genresOf, h, PC.jsTruthy]
  · intro h
    simp [PC.genresOf, h, PC.jsTruthy]
  · intro n hn h
    simp [PC.genresOf, h, PC.jsTruthy, PC.display, hn]

/-- Witness for C7 at three concrete records: null genres and 0 genres
normalize to the empty string, while genres 42 renders as its decimal
text. -/
theorem claim7_witness :
    PC.genresOf nullRec = "" ∧
    PC.genresOf { nullRec with genres := PC.JSVal.num 0 } = "" ∧
    PC.genresOf gRec = toString (42 : Int) :=
  ⟨(claim7_falsy_genres_normalized nullRec).1 rfl,
   (claim7_falsy_genres_normalized { nullRec with genres := PC.JSVal.num 0 }).2.1 rfl,
   (claim7_falsy_genres_normalized gRec).2.2 42 (by decide) rfl⟩

/-- C9 counterexample: interpolated text is not escaped, so the record
whose title carries a script element produces markup containing that
script element — the fragment is not script-free for every input. -/
theorem claim9_counterexample :
    SubStr "<script>" (PC.renderHTML fmtDemo xssRec) := by
  simp only [PC.renderHTML]
  apply substr_append_right
  apply substr_append_right
  apply substr_append_right
  apply substr_append_right
  apply substr_append_right
  apply substr_append_right
  apply substr_append_right
  apply substr_append_right
  apply substr_append_right
  apply substr_append_left
  exact ⟨"", "alert(1)</script>", by rfl⟩

/-- C9 (amended): the render operation interpolates field text into the
markup unescaped and verbatim, so the fragment is only as safe as the
input record: any fragment contained in the rendered title text — a
script tag in particular — appears in the produced markup. -/
theorem claim9_unescaped_interpolation (fmt : PC.JSVal → String)
    (d : PC.PodcastData) (pat : String) (h : SubStr pat (PC.titleOf d)) :
    SubStr pat (PC.renderHTML fmt d) := by
  simp only [PC.renderHTML]
  apply substr_append_right
  apply substr_append_right
  apply substr_append_right
  apply substr_append_right
  apply substr_append_right
  apply substr_append_right
  apply substr_append_right
  apply substr_append_left
  exact h

/-- Witness for C9: the script-bearing title is contained in its own
rendered text, hence in the markup of the record that carries it. -/
theorem claim9_witness :
    SubStr "<script>" (PC.titleOf xssRec) ∧
    SubStr "<script>" (PC.renderHTML fmtDemo xssRec) := by
  have h : SubStr "<script>" (PC.titleOf xssRec) :=
    ⟨"", "alert(1)</script>", by rfl⟩
  exact ⟨h, claim9_unescaped_interpolation fmtDemo xssRec "<script>" h⟩
